import Mathlib

/-
  Verification of the AssetsSync frontend auth layer.

  Shallow embedding of:
    - src/lib/auth-context.tsx  (AuthProvider: initializeAuth, handleNewToken,
      validateToken, login, logout, refreshToken, clearAuth)
    - src/lib/api-client.ts     (APIClient.makeRequest and the PAT DTO types)

  Modelling conventions:
    - React state setters (setAccessToken, setUser, setIsAuthenticated,
      setIsLoading) and the two localStorage keys ("accessToken",
      "redirectAfterLogin") are combined into one record `AuthState`.
    - Network behaviour is an explicit oracle argument ("wire"), one value per
      fetch the operation can perform; each operation also returns the list of
      HTTP requests it issued, so the theorems can count and inspect them.
    - `window.location.replace` / `window.location.href` are hard navigations
      (full page loads); an operation returns its navigation target explicitly.
    - The composite `JSON.parse(atob(token.split(".")[1]))` is a browser
      built-in pipeline, abstracted as a parameter
      `decode : String -> Option JwtPayload`; `none` models a thrown decode
      error, `some p` the parsed claim object.
-/

namespace AssetsSync

/-- Decoded JWT claim payload, as read by handleNewToken
(auth-context.tsx:77-85): sub plus optional email, name, picture. -/
structure JwtPayload where
  sub : String
  email : Option String
  name : Option String
  picture : Option String
deriving DecidableEq, Repr

/-- The User interface of auth-context.tsx:14-19. -/
structure User where
  id : String
  email : Option String
  name : Option String
  picture : Option String
deriving DecidableEq, Repr

/-- The AuthProvider's client-side state: the three React session fields,
the isLoading flag, and the two localStorage slots the code touches
("accessToken" and "redirectAfterLogin"). -/
structure AuthState where
  accessToken : Option String
  isAuthenticated : Bool
  user : Option User
  isLoading : Bool
  storedToken : Option String
  storedRedirect : Option String
deriving DecidableEq, Repr

/-- One outbound HTTP request: endpoint path, method, and the value of the
Authorization header if one was attached. -/
structure Request where
  endpoint : String
  method : String
  auth : Option String
deriving DecidableEq, Repr

/-- Response.ok of the fetch API: status in the range 200-299. -/
def isOk (status : Nat) : Bool :=
  decide (200 ≤ status) && decide (status < 300)

/-- clearAuth (auth-context.tsx:162-169): null the three session fields and
remove the persisted "accessToken" key. The "redirectAfterLogin" key and
isLoading are not touched. -/
def clearAuth (s : AuthState) : AuthState :=
  { s with accessToken := none, isAuthenticated := false, user := none,
           storedToken := none }

/-- handleNewToken (auth-context.tsx:75-91): decode the token payload; on
success set all three session fields and persist the token; on a decode
error fall into the catch block, which calls clearAuth. -/
def handleNewToken (decode : String → Option JwtPayload) (s : AuthState)
    (token : String) : AuthState :=
  match decode token with
  | some p =>
      { s with accessToken := some token, isAuthenticated := true,
               user := some ⟨p.sub, p.email, p.name, p.picture⟩,
               storedToken := some token }
  | none => clearAuth s

/-- Outcome of parsing the refresh response body (`await res.json()` then
reading `data.accessToken`, auth-context.tsx:150-151): the parse can throw,
the field can be absent or falsy, or a token string is present. -/
inductive RefreshBody where
  | parseError
  | missingToken
  | token (t : String)
deriving DecidableEq, Repr

/-- Oracle for the single POST /auth/refresh fetch of refreshToken:
either the fetch itself throws (network error) or it yields a status and,
when the status is ok, a body parse outcome. -/
inductive RefreshWire where
  | netError
  | response (status : Nat) (body : RefreshBody)
deriving DecidableEq, Repr

/-- refreshToken (auth-context.tsx:141-160). POST /auth/refresh with the
session cookie (no Authorization header). Branches, as in the source:
a thrown fetch or a thrown res.json() lands in the catch, which calls
clearAuth and returns false; `if (!res.ok) return false` and
`if (!data.accessToken) return false` return failure WITHOUT clearing;
otherwise the new token is accepted via handleNewToken and true is
returned. Returns (new state, reported result, requests issued). -/
def refreshToken (decode : String → Option JwtPayload) (s : AuthState)
    (wire : RefreshWire) : AuthState × Bool × List Request :=
  let req : Request := ⟨"/auth/refresh", "POST", none⟩
  match wire with
  | .netError => (clearAuth s, false, [req])
  | .response status body =>
      if isOk status then
        match body with
        | .parseError => (clearAuth s, false, [req])
        | .missingToken => (s, false, [req])
        | .token t => (handleNewToken decode s t, true, [req])
      else (s, false, [req])

/-- Oracle for validateToken: the status of the GET fetch (none models a
thrown network error) plus the wire used by the nested refreshToken call
when the status is 401. -/
structure ValidateWire where
  result : Option Nat
  refresh : RefreshWire
deriving DecidableEq, Repr

/-- validateToken (auth-context.tsx:93-112). Issues
GET BACKEND_URL/auth/ynab/status with `Authorization: Bearer token`.
On res.ok the token is re-accepted via handleNewToken; on 401 it calls
refreshToken once and clears if that reported failure; on any other
status, or a thrown fetch, it clears. -/
def validateToken (decode : String → Option JwtPayload) (s : AuthState)
    (token : String) (wire : ValidateWire) : AuthState × List Request :=
  let req : Request := ⟨"/auth/ynab/status", "GET", some ("Bearer " ++ token)⟩
  match wire.result with
  | none => (clearAuth s, [req])
  | some status =>
      if isOk status then (handleNewToken decode s token, [req])
      else if status == 401 then
        match refreshToken decode s wire.refresh with
        | (s1, refreshed, tr) =>
            (if refreshed then s1 else clearAuth s1, req :: tr)
      else (clearAuth s, [req])

/-- Oracle for the best-effort POST /auth/logout fetch. -/
inductive LogoutWire where
  | netError
  | response (status : Nat)
deriving DecidableEq, Repr

/-- logout (auth-context.tsx:125-139). The fetch outcome is ignored (a
thrown error is caught and only logged; a non-2xx status is never
inspected); the finally block always runs clearAuth and navigates to
"/login". Returns (new state, navigation target, requests issued). -/
def logout (s : AuthState) (_wire : LogoutWire) :
    AuthState × String × List Request :=
  (clearAuth s, "/login", [⟨"/auth/logout", "POST", none⟩])

/-- Result of initializeAuth: the final state, the hard-navigation target
(window.location.replace) if one was performed, and the requests issued. -/
structure InitResult where
  state : AuthState
  nav : Option String
  trace : List Request
deriving DecidableEq, Repr

/-- initializeAuth (auth-context.tsx:44-73). `urlToken` is the value of the
`token` query parameter of the current URL. With a URL token: accept it via
handleNewToken, read and remove the stashed "redirectAfterLogin" path
(default "/"), and hard-navigate there via window.location.replace — a
full page load. Without one: validate any persisted token, else do
nothing. The finally block sets isLoading to false on every path. -/
def initializeAuth (decode : String → Option JwtPayload) (s : AuthState)
    (urlToken : Option String) (wire : ValidateWire) : InitResult :=
  match urlToken with
  | some tok =>
      let s1 := handleNewToken decode s tok
      let redirectPath := s1.storedRedirect.getD "/"
      ⟨{ s1 with storedRedirect := none, isLoading := false },
       some redirectPath, []⟩
  | none =>
      match s.storedToken with
      | some saved =>
          match validateToken decode s saved wire with
          | (s1, tr) => ⟨{ s1 with isLoading := false }, none, tr⟩
      | none => ⟨{ s with isLoading := false }, none, []⟩

/-- Header maps are association lists; a JS object spread entry
`...\x7bAuthorization: v\x7d` placed after earlier entries overrides any
earlier value for that key. -/
def setHeader (hs : List (String × String)) (k v : String) :
    List (String × String) :=
  hs.filter (fun p => p.1 != k) ++ [(k, v)]

/-- Look up a header value by key. -/
def lookupHeader (hs : List (String × String)) (k : String) : Option String :=
  (hs.reverse.find? (fun p => p.1 == k)).map Prod.snd

/-- The header object built by makeRequest (api-client.ts:37-41):
Content-Type json, then `Authorization: Bearer token` when a token is
present, then the caller's per-request headers, later entries overriding
earlier ones. -/
def buildHeaders (token : Option String) (optHeaders : List (String × String)) :
    List (String × String) :=
  let h0 : List (String × String) := [("Content-Type", "application/json")]
  let h1 := match token with
    | some t => setHeader h0 "Authorization" ("Bearer " ++ t)
    | none => h0
  optHeaders.foldl (fun hs p => setHeader hs p.1 p.2) h1

/-- The two injected dependencies of APIClient (api-client.ts:20-26):
getAccessToken and refreshToken, over an abstract auth-state type σ.
doRefresh returns the updated state and the reported Boolean result. -/
structure GatewayDeps (σ : Type) where
  getToken : σ → Option String
  doRefresh : σ → σ × Bool

/-- An HTTP response as makeRequest inspects it: status plus body text. -/
structure HttpResp where
  status : Nat
  body : String
deriving DecidableEq, Repr

/-- Observable outcome of makeRequest: a decoded success body, the thrown
`Error("Authentication failed, please login")`, the thrown
`Error("HTTP status: text")` generic request error, or a propagated
network error from fetch. -/
inductive ApiResult where
  | success (body : String)
  | authFailure
  | httpError (status : Nat) (body : String)
  | netFailure
deriving DecidableEq, Repr

/-- Events makeRequest performs, in order: fetches (with the Authorization
header value actually sent) and invocations of the injected refreshToken. -/
inductive GwEvent where
  | fetched (endpoint : String) (method : String) (auth : Option String)
  | refreshCalled
deriving DecidableEq, Repr

/-- makeRequest (api-client.ts:29-72). First fetch with the built headers;
if the status is exactly 401 AND a token was attached, call refreshToken
once; if it reports failure throw the authentication error, otherwise
rebuild the Authorization header from the now-current token (when one
exists — the spread adds nothing when getAccessToken() is null) and issue
the identical request once more. Whatever response is then current: non-ok
throws the generic HTTP error with status and body text, ok returns the
body. `resp1`/`resp2` are the oracle outcomes of the two possible fetches
(none = network error, which propagates uncaught). -/
def makeRequest {σ : Type} (deps : GatewayDeps σ) (st : σ) (endpoint : String)
    (method : String) (optHeaders : List (String × String))
    (resp1 resp2 : Option HttpResp) : σ × ApiResult × List GwEvent :=
  let token := deps.getToken st
  let configHeaders := buildHeaders token optHeaders
  let ev1 : GwEvent :=
    .fetched endpoint method (lookupHeader configHeaders "Authorization")
  match resp1 with
  | none => (st, .netFailure, [ev1])
  | some r1 =>
      if r1.status == 401 && token.isSome then
        match deps.doRefresh st with
        | (st1, refreshed) =>
            if !refreshed then (st1, .authFailure, [ev1, .refreshCalled])
            else
              let newToken := deps.getToken st1
              let newHeaders := match newToken with
                | some t => setHeader configHeaders "Authorization" ("Bearer " ++ t)
                | none => configHeaders
              let ev2 : GwEvent :=
                .fetched endpoint method (lookupHeader newHeaders "Authorization")
              match resp2 with
              | none => (st1, .netFailure, [ev1, .refreshCalled, ev2])
              | some r2 =>
                  if isOk r2.status then
                    (st1, .success r2.body, [ev1, .refreshCalled, ev2])
                  else
                    (st1, .httpError r2.status r2.body, [ev1, .refreshCalled, ev2])
      else
        if isOk r1.status then (st, .success r1.body, [ev1])
        else (st, .httpError r1.status r1.body, [ev1])

/-- Is this event an invocation of the injected refreshToken? -/
def isRefreshEvent : GwEvent → Bool
  | .refreshCalled => true
  | _ => false

/-- Is this event an outbound fetch? -/
def isFetchEvent : GwEvent → Bool
  | .fetched _ _ _ => true
  | _ => false

/-- Number of refreshToken invocations in an event trace. -/
def refreshCount (evs : List GwEvent) : Nat :=
  (evs.filter isRefreshEvent).length

/-- Number of fetches in an event trace. -/
def fetchCount (evs : List GwEvent) : Nat :=
  (evs.filter isFetchEvent).length

/-- The ApiTokenDto interface (api-client.ts:5-13): the shape of each
element returned by getApiTokens. It has no plaintext-secret field. -/
structure ApiTokenDto where
  id : Int
  name : String
  user_id : Int
  scopes : List String
  created_at : String
  last_used_at : Option String
  expires_at : Option String
deriving DecidableEq, Repr

/-- The declared result shape of createApiToken (api-client.ts:126-130):
id, token (the plaintext secret), name, createdAt. -/
structure CreateApiTokenResponse where
  id : Int
  token : String
  name : String
  createdAt : String
deriving DecidableEq, Repr

/-- Field names of ApiTokenDto, in declaration order (api-client.ts:5-13). -/
def apiTokenDtoFields : List String :=
  ["id", "name", "user_id", "scopes", "created_at", "last_used_at",
   "expires_at"]

/-- Field names of createApiToken's response type (api-client.ts:128). -/
def createApiTokenResponseFields : List String :=
  ["id", "token", "name", "createdAt"]

/-- Mutual consistency of the session fields (claim C10's invariant):
accessToken is present iff isAuthenticated iff user is present, and when
the in-memory credential is absent the persisted "accessToken" key is
absent too. -/
def consistentB (s : AuthState) : Bool :=
  (s.accessToken.isSome == s.isAuthenticated) &&
  (s.accessToken.isSome == s.user.isSome) &&
  (s.accessToken.isSome || s.storedToken.isNone)

/-- Concrete gateway dependencies whose refresh always reports failure. -/
def depsF : GatewayDeps Bool :=
  ⟨fun _ => some "old", fun _ => (false, false)⟩

/-- A sample decoded claim set, used to instantiate theorems. -/
def payload0 : JwtPayload := ⟨"user-1", some "u@example.com", some "U", none⟩

/-- A decode oracle for which every token has payload0. -/
def decodeAll : String → Option JwtPayload := fun _ => some payload0

/-- A decode oracle for which every token is malformed. -/
def decodeNone : String → Option JwtPayload := fun _ => none

/-- Fresh page-load state: nothing in memory, nothing persisted. -/
def sEmpty : AuthState := ⟨none, false, none, true, none, none⟩

/-- An authenticated state holding credential "old", in memory and
persisted. -/
def sAuthed : AuthState :=
  ⟨some "old", true, some ⟨"user-1", none, none, none⟩, false, some "old", none⟩

/-- Concrete gateway dependencies over the state type Bool (false = before
refresh, true = after): the current token is "old" before and "new" after,
and refreshing always succeeds. -/
def depsW : GatewayDeps Bool :=
  ⟨fun b => some (if b then "new" else "old"), fun _ => (true, true)⟩

/-! Helper lemmas -/

/-- A state produced by clearAuth always has mutually consistent session
fields and no persisted key. -/
theorem consistentB_clearAuth (s : AuthState) :
    consistentB (clearAuth s) = true := rfl

/-- handleNewToken yields a consistent state unconditionally: on decode
success all three fields are set together with the persisted key, on
decode failure everything is cleared. -/
theorem consistentB_handleNewToken (decode : String → Option JwtPayload)
    (s : AuthState) (t : String) :
    consistentB (handleNewToken decode s t) = true := by
  unfold handleNewToken
  cases decode t with
  | some p => rfl
  | none => exact consistentB_clearAuth s

/-- refreshToken issues exactly the one POST /auth/refresh request on every
path. -/
theorem refreshToken_trace (decode : String → Option JwtPayload)
    (s : AuthState) (w : RefreshWire) :
    (refreshToken decode s w).2.2 = [⟨"/auth/refresh", "POST", none⟩] := by
  cases w with
  | netError => rfl
  | response status body =>
      by_cases h : isOk status = true
      · cases body <;> simp [refreshToken, h]
      · simp [refreshToken, h]

/-- refreshToken preserves session-field consistency: every path ends in
clearAuth, handleNewToken, or the unchanged input state. -/
theorem consistentB_refreshToken (decode : String → Option JwtPayload)
    (s : AuthState) (w : RefreshWire) (h : consistentB s = true) :
    consistentB (refreshToken decode s w).1 = true := by
  cases w with
  | netError => exact consistentB_clearAuth s
  | response status body =>
      by_cases hok : isOk status = true
      · cases body with
        | parseError =>
            simp only [refreshToken, hok, if_true]
            exact consistentB_clearAuth s
        | missingToken =>
            simpa only [refreshToken, hok, if_true] using h
        | token t =>
            simp only [refreshToken, hok, if_true]
            exact consistentB_handleNewToken decode s t
      · simpa only [refreshToken, if_neg hok] using h

/-- validateToken preserves session-field consistency. -/
theorem consistentB_validateToken (decode : String → Option JwtPayload)
    (s : AuthState) (t : String) (w : ValidateWire)
    (h : consistentB s = true) :
    consistentB (validateToken decode s t w).1 = true := by
  obtain ⟨res, rw⟩ := w
  cases res with
  | none => exact consistentB_clearAuth s
  | some status =>
      by_cases hok : isOk status = true
      · simp only [validateToken, hok, if_true]
        exact consistentB_handleNewToken decode s t
      · by_cases h401 : status == 401
        · rcases hr : refreshToken decode s rw with ⟨s1, refreshed, tr⟩
          have hs1 : consistentB s1 = true := by
            have := consistentB_refreshToken decode s rw h
            rwa [hr] at this
          cases refreshed with
          | true => simpa only [validateToken, hok, if_false, h401, if_true,
              hr, Bool.false_eq_true] using hs1
          | false =>
              simp only [validateToken, hok, h401, hr, Bool.false_eq_true,
                if_false, if_true]
              exact consistentB_clearAuth s1
        · simp only [validateToken, hok, h401, Bool.false_eq_true, if_false]
          exact consistentB_clearAuth s

/-- Looking up a header key that was just (re)set by a later object-spread
entry yields the new value. -/
theorem lookupHeader_setHeader (hs : List (String × String)) (k v : String) :
    lookupHeader (setHeader hs k v) k = some v := by
  simp [lookupHeader, setHeader, List.find?]

/-! Claims -/

/-- C7: every invocation of logout(), whatever the backend call does
(network error or any status), surfaces no error, unconditionally purges
the local auth state and persisted key (clearAuth), and navigates to
"/login". The result is literally independent of the wire outcome. -/
theorem logout_swallows_errors_purges_and_navigates (s : AuthState)
    (w w1 : LogoutWire) :
    logout s w = logout s w1 ∧
    (logout s w).1 = clearAuth s ∧
    (logout s w).2.1 = "/login" ∧
    (logout s w).2.2 = [⟨"/auth/logout", "POST", none⟩] :=
  ⟨rfl, rfl, rfl, rfl⟩

/-- C8: the creation response type of createApiToken carries the plaintext
secret field "token", and the listing element type ApiTokenDto carries
exactly id, name, user_id, scopes, created_at, last_used_at, expires_at —
no plaintext secret field. -/
theorem api_token_plaintext_only_at_creation :
    createApiTokenResponseFields.contains "token" = true ∧
    apiTokenDtoFields.contains "token" = false ∧
    apiTokenDtoFields = ["id", "name", "user_id", "scopes", "created_at",
      "last_used_at", "expires_at"] := by decide

/-- C5: accepting a token whose payload fails to decode behaves exactly
like a validation failure: handleNewToken equals clearAuth, so the three
session fields and the persisted key are all cleared and the resulting
state is consistent (never partial). -/
theorem undecodable_token_purges_like_validation_failure
    (decode : String → Option JwtPayload) (s : AuthState) (token : String)
    (h : decode token = none) :
    handleNewToken decode s token = clearAuth s ∧
    (handleNewToken decode s token).accessToken = none ∧
    (handleNewToken decode s token).isAuthenticated = false ∧
    (handleNewToken decode s token).user = none ∧
    (handleNewToken decode s token).storedToken = none ∧
    consistentB (handleNewToken decode s token) = true := by
  refine ⟨?_, ?_, ?_, ?_, ?_, consistentB_handleNewToken decode s token⟩ <;>
    simp [handleNewToken, h, clearAuth]

/-- Witness for C5 at the concrete malformed token "bad". -/
theorem undecodable_token_purges_witness :
    decodeNone "bad" = none ∧
    (handleNewToken decodeNone sAuthed "bad" = clearAuth sAuthed ∧
     (handleNewToken decodeNone sAuthed "bad").accessToken = none ∧
     (handleNewToken decodeNone sAuthed "bad").isAuthenticated = false ∧
     (handleNewToken decodeNone sAuthed "bad").user = none ∧
     (handleNewToken decodeNone sAuthed "bad").storedToken = none ∧
     consistentB (handleNewToken decodeNone sAuthed "bad") = true) :=
  ⟨rfl,
   undecodable_token_purges_like_validation_failure decodeNone sAuthed "bad" rfl⟩

/-- C2 counterexample: refreshToken fails (reports false) on an HTTP 500
refresh response while leaving the authenticated state fully intact — the
in-memory credential "old" and the persisted key are NOT purged, contrary
to the claim that every failure purges. -/
theorem refresh_failure_without_purge_counterexample :
    (refreshToken decodeNone sAuthed
       (.response 500 (RefreshBody.token "t2"))).2.1 = false ∧
    (refreshToken decodeNone sAuthed
       (.response 500 (RefreshBody.token "t2"))).1 = sAuthed ∧
    sAuthed.accessToken = some "old" ∧
    sAuthed.storedToken = some "old" := by decide

/-- C2 amended: refreshToken purges state exactly on its thrown failures —
a network error or a body whose JSON parse throws; on a non-success HTTP
status, or an ok response whose body lacks an accessToken, it returns
failure with the prior state (any attached credential included) unchanged. -/
theorem refreshToken_failure_purge_profile
    (decode : String → Option JwtPayload) (s : AuthState) :
    refreshToken decode s .netError =
      (clearAuth s, false, [⟨"/auth/refresh", "POST", none⟩]) ∧
    (∀ status b, isOk status = false →
      refreshToken decode s (.response status b) =
        (s, false, [⟨"/auth/refresh", "POST", none⟩])) ∧
    (∀ status, isOk status = true →
      refreshToken decode s (.response status .parseError) =
        (clearAuth s, false, [⟨"/auth/refresh", "POST", none⟩])) ∧
    (∀ status, isOk status = true →
      refreshToken decode s (.response status .missingToken) =
        (s, false, [⟨"/auth/refresh", "POST", none⟩])) := by
  refine ⟨rfl, ?_, ?_, ?_⟩
  · intro status b h
    simp [refreshToken, h]
  · intro status h
    simp [refreshToken, h]
  · intro status h
    simp [refreshToken, h]

/-- Witness for C2's amended theorem at statuses 500 and 200. -/
theorem refreshToken_failure_purge_profile_witness :
    isOk 500 = false ∧
    (refreshToken decodeNone sAuthed (.response 500 (RefreshBody.token "t2")) =
      (sAuthed, false, [⟨"/auth/refresh", "POST", none⟩])) :=
  ⟨by decide,
   (refreshToken_failure_purge_profile decodeNone sAuthed).2.1 500
     (RefreshBody.token "t2") (by decide)⟩

/-- C9 counterexample: two invocations of refreshToken (as arise from two
simultaneous 401s; the closure consults no in-flight marker before
fetching) issue two POST /auth/refresh network calls, not one. -/
theorem concurrent_refresh_two_calls_counterexample :
    ((refreshToken decodeAll sAuthed (.response 200 (RefreshBody.token "n1"))).2.2 ++
     (refreshToken decodeAll
        (refreshToken decodeAll sAuthed (.response 200 (RefreshBody.token "n1"))).1
        (.response 200 (RefreshBody.token "n2"))).2.2).length = 2 ∧
    ¬ ((refreshToken decodeAll sAuthed (.response 200 (RefreshBody.token "n1"))).2.2 ++
       (refreshToken decodeAll
          (refreshToken decodeAll sAuthed (.response 200 (RefreshBody.token "n1"))).1
          (.response 200 (RefreshBody.token "n2"))).2.2).length = 1 := by decide

/-- C9 amended: every invocation of refreshToken unconditionally issues its
own POST /auth/refresh call — no state makes it skip or coalesce the
fetch — so n invocations produce n refresh network calls (two shown). -/
theorem refresh_no_single_flight (decode : String → Option JwtPayload)
    (s : AuthState) (w1 w2 : RefreshWire) :
    (refreshToken decode s w1).2.2 = [⟨"/auth/refresh", "POST", none⟩] ∧
    ((refreshToken decode s w1).2.2 ++
     (refreshToken decode (refreshToken decode s w1).1 w2).2.2).length = 2 := by
  have htrace : ∀ (s1 : AuthState) (w : RefreshWire),
      (refreshToken decode s1 w).2.2 = [⟨"/auth/refresh", "POST", none⟩] := by
    intro s1 w
    cases w with
    | netError => rfl
    | response status body =>
        by_cases h : isOk status = true
        · cases body <;> simp [refreshToken, h]
        · simp [refreshToken, h]
  exact ⟨htrace s w1, by rw [htrace s w1, htrace _ w2]; rfl⟩

/-- C10: starting from any state whose session fields are mutually
consistent, every completed controller operation — clearAuth,
handleNewToken, refreshToken, validateToken, logout, initializeAuth —
leaves the fields mutually consistent (accessToken present iff
authenticated iff user present) with the persisted key absent whenever the
credential is absent; no operation produces a mixed state. -/
theorem auth_operations_preserve_consistency
    (decode : String → Option JwtPayload) (s : AuthState) (token : String)
    (urlToken : Option String) (rw : RefreshWire) (vw : ValidateWire)
    (lw : LogoutWire) (h : consistentB s = true) :
    consistentB (clearAuth s) = true ∧
    consistentB (handleNewToken decode s token) = true ∧
    consistentB (refreshToken decode s rw).1 = true ∧
    consistentB (validateToken decode s token vw).1 = true ∧
    consistentB (logout s lw).1 = true ∧
    consistentB (initializeAuth decode s urlToken vw).state = true := by
  refine ⟨consistentB_clearAuth s, consistentB_handleNewToken decode s token,
    consistentB_refreshToken decode s rw h,
    consistentB_validateToken decode s token vw h,
    consistentB_clearAuth s, ?_⟩
  cases urlToken with
  | some tok => exact consistentB_handleNewToken decode s tok
  | none =>
      obtain ⟨a, ia, u, il, st, sr⟩ := s
      cases st with
      | some saved =>
          rcases hv : validateToken decode ⟨a, ia, u, il, some saved, sr⟩
              saved vw with ⟨s1, tr⟩
          have hs1 : consistentB s1 = true := by
            have hc := consistentB_validateToken decode
              ⟨a, ia, u, il, some saved, sr⟩ saved vw h
            rwa [hv] at hc
          simp only [initializeAuth, hv]
          exact hs1
      | none => exact h

/-- Witness for C10 at a concrete consistent authenticated state. -/
theorem auth_operations_preserve_consistency_witness :
    consistentB sAuthed = true ∧
    (consistentB (clearAuth sAuthed) = true ∧
     consistentB (handleNewToken decodeAll sAuthed "t") = true ∧
     consistentB (refreshToken decodeAll sAuthed RefreshWire.netError).1 = true ∧
     consistentB (validateToken decodeAll sAuthed "t"
       ⟨some 200, RefreshWire.netError⟩).1 = true ∧
     consistentB (logout sAuthed LogoutWire.netError).1 = true ∧
     consistentB (initializeAuth decodeAll sAuthed (some "tok")
       ⟨some 200, RefreshWire.netError⟩).state = true) :=
  ⟨by decide,
   auth_operations_preserve_consistency decodeAll sAuthed "t" (some "tok")
     RefreshWire.netError ⟨some 200, RefreshWire.netError⟩ LogoutWire.netError
     (by decide)⟩

/-- C4 counterexample: the lightweight validation request issued by
validateToken goes to "/auth/ynab/status", which is not the
"/auth/validate" endpoint the claim names. -/
theorem validate_endpoint_counterexample :
    ((validateToken decodeAll sAuthed "old"
        ⟨some 200, RefreshWire.netError⟩).2.map Request.endpoint) =
      ["/auth/ynab/status"] ∧
    ¬ ("/auth/ynab/status" = "/auth/validate") := by decide

/-- C4 amended: with no URL token and a persisted credential, the
controller validates it with a GET to "/auth/ynab/status" (the YNAB status
endpoint serves as the lightweight authenticated request — not
"/auth/validate") carrying the Bearer credential; on a 2xx it re-accepts
the token locally (handleNewToken); on a 401 it performs exactly one
refresh call and purges if the refresh reported failure; on any other
status, or a thrown fetch, it purges. -/
theorem validateToken_behaviour (decode : String → Option JwtPayload)
    (s : AuthState) (t : String) (w : ValidateWire) :
    (validateToken decode s t w).2.head? =
      some ⟨"/auth/ynab/status", "GET", some ("Bearer " ++ t)⟩ ∧
    (∀ status, w.result = some status → isOk status = true →
      (validateToken decode s t w).1 = handleNewToken decode s t) ∧
    (w.result = some 401 →
      ((validateToken decode s t w).2.filter
          (fun r => r.endpoint == "/auth/refresh")).length = 1) ∧
    (w.result = some 401 → (refreshToken decode s w.refresh).2.1 = false →
      (validateToken decode s t w).1 =
        clearAuth (refreshToken decode s w.refresh).1) ∧
    (∀ status, w.result = some status → isOk status = false →
      ¬ status = 401 → (validateToken decode s t w).1 = clearAuth s) ∧
    (w.result = none → (validateToken decode s t w).1 = clearAuth s) := by
  obtain ⟨res, rw⟩ := w
  refine ⟨?_, ?_, ?_, ?_, ?_, ?_⟩
  · cases res with
    | none => rfl
    | some status =>
        by_cases hok : isOk status = true
        · simp [validateToken, hok]
        · by_cases h401 : status == 401
          · rcases hr : refreshToken decode s rw with ⟨s1, refreshed, tr⟩
            simp [validateToken, hok, h401, hr]
          · simp [validateToken, hok, h401]
  · intro status hres hok
    cases hres
    simp [validateToken, hok]
  · intro hres
    cases hres
    rcases hr : refreshToken decode s rw with ⟨s1, refreshed, tr⟩
    have htr : tr = [⟨"/auth/refresh", "POST", none⟩] := by
      have := refreshToken_trace decode s rw
      rw [hr] at this
      exact this
    simp [validateToken, isOk, hr, htr]
  · intro hres hfail
    cases hres
    rcases hr : refreshToken decode s rw with ⟨s1, refreshed, tr⟩
    rw [hr] at hfail
    simp only at hfail
    simp [validateToken, isOk, hr, hfail]
  · intro status hres hok h401
    cases hres
    have h401b : (status == 401) = false := by
      simpa using h401
    simp [validateToken, hok, h401b]
  · intro hres
    cases hres
    rfl

/-- Witness for C4's amended theorem: a 2xx validation re-accepts the
token, and a 401 validation issues exactly one refresh call. -/
theorem validateToken_behaviour_witness :
    (isOk 200 = true ∧
     (validateToken decodeAll sAuthed "old"
        ⟨some 200, RefreshWire.netError⟩).1 =
       handleNewToken decodeAll sAuthed "old") ∧
    ((validateToken decodeAll sAuthed "old"
        ⟨some 401, RefreshWire.netError⟩).2.filter
        (fun r => r.endpoint == "/auth/refresh")).length = 1 :=
  ⟨⟨by decide,
    (validateToken_behaviour decodeAll sAuthed "old"
       ⟨some 200, RefreshWire.netError⟩).2.1 200 rfl (by decide)⟩,
   (validateToken_behaviour decodeAll sAuthed "old"
      ⟨some 401, RefreshWire.netError⟩).2.2.1 rfl⟩

/-- C3 counterexample: initializing with a decodable URL token performs a
hard navigation — initializeAuth calls window.location.replace (a full
page load) to strip the token from the visible URL, so the strip does NOT
happen "without a navigation reload". -/
theorem url_token_navigation_counterexample :
    (initializeAuth decodeAll sEmpty (some "tok")
        ⟨some 200, RefreshWire.netError⟩).nav = some "/" ∧
    ¬ (initializeAuth decodeAll sEmpty (some "tok")
        ⟨some 200, RefreshWire.netError⟩).nav = none := by decide

/-- C3 amended: after initialization with a decodable URL token, the stored
credential equals the URL token, the identity is populated by local
decoding with no network request, the state is authenticated, and the
token parameter disappears from the visible URL because the controller
hard-navigates (window.location.replace — a page reload) to the stashed
return path, clearing the stash. -/
theorem init_with_url_token (decode : String → Option JwtPayload)
    (s : AuthState) (tok : String) (p : JwtPayload) (vw : ValidateWire)
    (h : decode tok = some p) :
    (initializeAuth decode s (some tok) vw).state.accessToken = some tok ∧
    (initializeAuth decode s (some tok) vw).state.storedToken = some tok ∧
    (initializeAuth decode s (some tok) vw).state.isAuthenticated = true ∧
    (initializeAuth decode s (some tok) vw).state.user =
      some ⟨p.sub, p.email, p.name, p.picture⟩ ∧
    (initializeAuth decode s (some tok) vw).trace = [] ∧
    (initializeAuth decode s (some tok) vw).nav =
      some (s.storedRedirect.getD "/") ∧
    (initializeAuth decode s (some tok) vw).state.storedRedirect = none := by
  simp [initializeAuth, handleNewToken, h]

/-- Witness for C3's amended theorem at the concrete token "tok". -/
theorem init_with_url_token_witness :
    decodeAll "tok" = some payload0 ∧
    ((initializeAuth decodeAll sEmpty (some "tok")
        ⟨some 200, RefreshWire.netError⟩).state.accessToken = some "tok" ∧
     (initializeAuth decodeAll sEmpty (some "tok")
        ⟨some 200, RefreshWire.netError⟩).state.storedToken = some "tok" ∧
     (initializeAuth decodeAll sEmpty (some "tok")
        ⟨some 200, RefreshWire.netError⟩).state.isAuthenticated = true ∧
     (initializeAuth decodeAll sEmpty (some "tok")
        ⟨some 200, RefreshWire.netError⟩).state.user =
       some ⟨payload0.sub, payload0.email, payload0.name, payload0.picture⟩ ∧
     (initializeAuth decodeAll sEmpty (some "tok")
        ⟨some 200, RefreshWire.netError⟩).trace = [] ∧
     (initializeAuth decodeAll sEmpty (some "tok")
        ⟨some 200, RefreshWire.netError⟩).nav =
       some (sEmpty.storedRedirect.getD "/") ∧
     (initializeAuth decodeAll sEmpty (some "tok")
        ⟨some 200, RefreshWire.netError⟩).state.storedRedirect = none) :=
  ⟨rfl,
   init_with_url_token decodeAll sEmpty "tok" payload0
     ⟨some 200, RefreshWire.netError⟩ rfl⟩

/-- C1: for every request through makeRequest, with any injected
getAccessToken/refreshToken: refreshToken runs exactly once when the first
response is a 401 and a credential was attached, and never otherwise; at
most two fetches ever happen, so a second 401 on the retried request
triggers no further refresh or retry; when the refresh reports success and
a credential is current afterwards, the identical request is re-issued
exactly once carrying that newly current credential; with no credential
attached, a 401 triggers no refresh. -/
theorem gateway_refresh_retry_contract {σ : Type} (deps : GatewayDeps σ)
    (st : σ) (endpoint method : String) (optHeaders : List (String × String))
    (resp1 resp2 : Option HttpResp) (out : σ × ApiResult × List GwEvent)
    (hout : out = makeRequest deps st endpoint method optHeaders resp1 resp2) :
    (deps.getToken st = none → refreshCount out.2.2 = 0) ∧
    refreshCount out.2.2 ≤ 1 ∧
    fetchCount out.2.2 ≤ 2 ∧
    (∀ r1, resp1 = some r1 →
      refreshCount out.2.2 =
        if r1.status = 401 ∧ (deps.getToken st).isSome = true then 1 else 0) ∧
    (∀ r1, resp1 = some r1 → r1.status = 401 →
      ∀ t, deps.getToken st = some t → (deps.doRefresh st).2 = true →
      ∀ t1, deps.getToken (deps.doRefresh st).1 = some t1 →
      fetchCount out.2.2 = 2 ∧
      out.2.2.getLast? =
        some (.fetched endpoint method (some ("Bearer " ++ t1)))) ∧
    (∀ r1, resp1 = some r1 → r1.status = 401 →
      ∀ t, deps.getToken st = some t → (deps.doRefresh st).2 = false →
      fetchCount out.2.2 = 1) := by
  subst hout
  cases resp1 with
  | none =>
      refine ⟨fun _ => rfl, Nat.zero_le 1, Nat.le_succ 1, ?_, ?_, ?_⟩
      · intro r1 h; simp at h
      · intro r1 h; simp at h
      · intro r1 h; simp at h
  | some r1 =>
      by_cases hc : (r1.status == 401 && (deps.getToken st).isSome) = true
      · have hc1 : r1.status = 401 ∧ (deps.getToken st).isSome = true := by
          simpa [Bool.and_eq_true] using hc
        rcases hds : deps.doRefresh st with ⟨st1, refreshed⟩
        cases refreshed with
        | false =>
            have htr : (makeRequest deps st endpoint method optHeaders
                (some r1) resp2).2.2 =
                [.fetched endpoint method (lookupHeader
                    (buildHeaders (deps.getToken st) optHeaders)
                    "Authorization"),
                 .refreshCalled] := by
              simp [makeRequest, hc, hds]
            refine ⟨?_, ?_, ?_, ?_, ?_, ?_⟩
            · intro htok; rw [htok] at hc1; simp at hc1
            · rw [htr]; exact Nat.le_refl 1
            · rw [htr]; exact Nat.le_succ 1
            · intro r2 h; cases h; rw [if_pos hc1, htr]; rfl
            · intro r2 h h401 t ht htrue t1 ht1
              simp at htrue
            · intro r2 h h401 t ht hfalse
              rw [htr]; rfl
        | true =>
            have htr : (makeRequest deps st endpoint method optHeaders
                (some r1) resp2).2.2 =
                [.fetched endpoint method (lookupHeader
                    (buildHeaders (deps.getToken st) optHeaders)
                    "Authorization"),
                 .refreshCalled,
                 .fetched endpoint method (lookupHeader
                    (match deps.getToken st1 with
                     | some t => setHeader
                         (buildHeaders (deps.getToken st) optHeaders)
                         "Authorization" ("Bearer " ++ t)
                     | none => buildHeaders (deps.getToken st) optHeaders)
                    "Authorization")] := by
              cases resp2 with
              | none => simp [makeRequest, hc, hds]
              | some r2 =>
                  simp [makeRequest, hc, hds]
                  split <;> rfl
            refine ⟨?_, ?_, ?_, ?_, ?_, ?_⟩
            · intro htok; rw [htok] at hc1; simp at hc1
            · rw [htr]; exact Nat.le_refl 1
            · rw [htr]; exact Nat.le_refl 2
            · intro r2 h; cases h; rw [if_pos hc1, htr]; rfl
            · intro r2 h h401 t ht htrue t1 ht1
              cases h
              have ht1a : deps.getToken st1 = some t1 := ht1
              rw [htr, ht1a]
              exact ⟨rfl, by simp [lookupHeader_setHeader]⟩
            · intro r2 h h401 t ht hfalse
              simp at hfalse
      · have hcf : (r1.status == 401 && (deps.getToken st).isSome) = false := by
          simpa using hc
        have hnot : ¬ (r1.status = 401 ∧ (deps.getToken st).isSome = true) := by
          intro hcon
          apply hc
          simp [hcon.1, hcon.2]
        have htr : (makeRequest deps st endpoint method optHeaders
            (some r1) resp2).2.2 =
            [.fetched endpoint method (lookupHeader
                (buildHeaders (deps.getToken st) optHeaders)
                "Authorization")] := by
          simp [makeRequest, hcf]
          split <;> rfl
        refine ⟨?_, ?_, ?_, ?_, ?_, ?_⟩
        · intro htok; rw [htr]; rfl
        · rw [htr]; exact Nat.zero_le 1
        · rw [htr]; exact Nat.le_succ 1
        · intro r2 h; cases h; rw [if_neg hnot, htr]; rfl
        · intro r2 h h401 t ht htrue t1 ht1
          cases h
          exact absurd (by simp [h401, ht]) hc
        · intro r2 h h401 t ht hfalse
          cases h
          exact absurd (by simp [h401, ht]) hc

/-- Witness for C1: with credential "old" attached, a first 401, a
successful refresh rotating to "new", and a 2xx retry, exactly two fetches
happen and the retried request carries the newly current credential. -/
theorem gateway_refresh_retry_contract_witness :
    depsW.getToken false = some "old" ∧
    (fetchCount (makeRequest depsW false "/x" "GET" []
        (some ⟨401, "a"⟩) (some ⟨200, "ok"⟩)).2.2 = 2 ∧
     (makeRequest depsW false "/x" "GET" []
        (some ⟨401, "a"⟩) (some ⟨200, "ok"⟩)).2.2.getLast? =
       some (GwEvent.fetched "/x" "GET" (some ("Bearer " ++ "new")))) :=
  ⟨rfl,
   (gateway_refresh_retry_contract depsW false "/x" "GET" []
      (some ⟨401, "a"⟩) (some ⟨200, "ok"⟩) _ rfl).2.2.2.2.1
     ⟨401, "a"⟩ rfl rfl "old" rfl rfl "new" rfl⟩

/-- C6 counterexample: with a credential attached, first response 401,
refresh successful, and a second 401 on the retried request, makeRequest
surfaces the generic request error `HTTP 401: body` — not the terminal
authentication error the claim requires for a 401 that survives the
refresh attempt. -/
theorem second_401_generic_error_counterexample :
    (makeRequest depsW false "/x" "GET" []
        (some ⟨401, "a"⟩) (some ⟨401, "denied"⟩)).2.1 =
      ApiResult.httpError 401 "denied" ∧
    ¬ ((makeRequest depsW false "/x" "GET" []
        (some ⟨401, "a"⟩) (some ⟨401, "denied"⟩)).2.1 =
      ApiResult.authFailure) := by decide

/-- C6 amended: the terminal authentication error is surfaced exactly when
the refresh attempt after a credentialed 401 reports failure; a 401 on the
retried request after a successful refresh — like every other non-2xx
response — is surfaced as the generic request error carrying the status
code and response body. -/
theorem gateway_error_classification {σ : Type} (deps : GatewayDeps σ)
    (st : σ) (endpoint method : String) (optHeaders : List (String × String))
    (resp1 resp2 : Option HttpResp) (out : σ × ApiResult × List GwEvent)
    (hout : out = makeRequest deps st endpoint method optHeaders resp1 resp2) :
    (∀ r1, resp1 = some r1 → r1.status = 401 →
      (deps.getToken st).isSome = true → (deps.doRefresh st).2 = false →
      out.2.1 = ApiResult.authFailure) ∧
    (∀ r1 r2, resp1 = some r1 → resp2 = some r2 → r1.status = 401 →
      (deps.getToken st).isSome = true → (deps.doRefresh st).2 = true →
      isOk r2.status = false →
      out.2.1 = ApiResult.httpError r2.status r2.body) ∧
    (∀ r1, resp1 = some r1 → isOk r1.status = false →
      ¬ (r1.status = 401 ∧ (deps.getToken st).isSome = true) →
      out.2.1 = ApiResult.httpError r1.status r1.body) := by
  subst hout
  rcases hds : deps.doRefresh st with ⟨st1, refreshed⟩
  refine ⟨?_, ?_, ?_⟩
  · intro r1 h h401 htok hfail
    cases h
    have hrf : refreshed = false := hfail
    subst hrf
    have hc : (r1.status == 401 && (deps.getToken st).isSome) = true := by
      simp [h401, htok]
    simp [makeRequest, hc, hds]
  · intro r1 r2 h1 h2 h401 htok hok hbad
    cases h1
    cases h2
    have hrt : refreshed = true := hok
    subst hrt
    have hc : (r1.status == 401 && (deps.getToken st).isSome) = true := by
      simp [h401, htok]
    simp [makeRequest, hc, hds, hbad]
  · intro r1 h hok hnot
    cases h
    have hcf : (r1.status == 401 && (deps.getToken st).isSome) = false := by
      rcases h4 : r1.status == 401 with _ | _
      · simp [h4]
      · rcases hs : (deps.getToken st).isSome with _ | _
        · simp [hs]
        · exact absurd ⟨by simpa using h4, hs⟩ hnot
    simp [makeRequest, hcf, hok]

/-- Witness for C6's amended theorem: a failed refresh yields the
authentication error; a second 401 after a successful refresh yields the
generic HTTP error with its status and body. -/
theorem gateway_error_classification_witness :
    (makeRequest depsF false "/x" "GET" []
        (some ⟨401, "a"⟩) none).2.1 = ApiResult.authFailure ∧
    (makeRequest depsW false "/x" "GET" []
        (some ⟨401, "a"⟩) (some ⟨401, "no"⟩)).2.1 =
      ApiResult.httpError 401 "no" :=
  ⟨(gateway_error_classification depsF false "/x" "GET" []
      (some ⟨401, "a"⟩) none _ rfl).1 ⟨401, "a"⟩ rfl rfl rfl rfl,
   (gateway_error_classification depsW false "/x" "GET" []
      (some ⟨401, "a"⟩) (some ⟨401, "no"⟩) _ rfl).2.1 ⟨401, "a"⟩ ⟨401, "no"⟩
     rfl rfl rfl rfl rfl (by decide)⟩

end AssetsSync
